import Mathlib

/-
Verification development for the audio module of lalitshankarchowdhury/audio-mixer
(src/src/audio/audio.c). The module drives OpenAL (device, context, source,
buffer) and libsndfile (file handle) through staged resource acquisition with
fallthrough-switch rollback. We embed the module shallowly: the outcome of each
fallible external call is an input (an environment record), and the side effects
performed on the external libraries are recorded as an event trace.
-/

/-- Result code returned by the fallible entry points. The header audio.h is
not part of the sources; only the success/failure distinction is observable, so
the result is modelled as a two-value type. -/
inductive AudioResult
  | success
  | failure
deriving DecidableEq, Repr

/-- OpenAL format constant AL_FORMAT_MONO8 (from AL/al.h). -/
def AL_FORMAT_MONO8 : Nat := 0x1100

/-- OpenAL format constant AL_FORMAT_MONO16 (from AL/al.h). -/
def AL_FORMAT_MONO16 : Nat := 0x1101

/-- OpenAL format constant AL_FORMAT_STEREO8 (from AL/al.h). -/
def AL_FORMAT_STEREO8 : Nat := 0x1102

/-- OpenAL format constant AL_FORMAT_STEREO16 (from AL/al.h). -/
def AL_FORMAT_STEREO16 : Nat := 0x1103

/-- libsndfile subformat code SF_FORMAT_PCM_S8 (signed 8-bit). -/
def SF_FORMAT_PCM_S8 : Nat := 0x0001

/-- libsndfile subformat code SF_FORMAT_PCM_16 (signed 16-bit). -/
def SF_FORMAT_PCM_16 : Nat := 0x0002

/-- libsndfile subformat code SF_FORMAT_PCM_24 (signed 24-bit). -/
def SF_FORMAT_PCM_24 : Nat := 0x0003

/-- libsndfile subformat code SF_FORMAT_PCM_32 (signed 32-bit). -/
def SF_FORMAT_PCM_32 : Nat := 0x0004

/-- libsndfile subformat code SF_FORMAT_PCM_U8 (unsigned 8-bit). -/
def SF_FORMAT_PCM_U8 : Nat := 0x0005

/-- Mask used at audio.c line 152 to extract the bit-depth/signedness subcode
from the libsndfile format field. -/
def pcm_format_mask : Nat := 0xF

/-! Enum internal_audio_subsystem_failure_statuses (audio.c lines 12-17),
values in declaration order. -/

def IAS_CLEANUP_NORMALLY : Nat := 0

def IAS_MAKE_CONTEXT_CURRENT_FAILURE : Nat := 1

def IAS_CREATE_DEVICE_CONTEXT_FAILURE : Nat := 2

def IAS_OPEN_DEFAULT_DEVICE_FAILURE : Nat := 3

/-! Enum internal_audio_track_failure_statuses (audio.c lines 19-27),
values in declaration order. -/

def IAC_CLEANUP_NORMALLY : Nat := 0

def IAC_OPEN_CLIP_FILE_FAILURE : Nat := 1

def IAC_GENERATE_GLOBAL_SOURCE_FAILURE : Nat := 2

def IAC_GENERATE_CLIP_BUFFER_FAILURE : Nat := 3

def IAC_ALLOCATE_MEMORY_TO_TEMP_CLIP_DATA_BUFFER_FAILURE : Nat := 4

def IAC_READ_CLIP_FILE_COMPLETELY_FAILURE : Nat := 5

def IAC_COPY_CLIP_FILE_DATA_TO_CLIP_BUFFER_FAILURE : Nat := 6

/-- Release calls issued by the subsystem cleanup routine, in the order the C
code issues them. -/
inductive SubAct
  | makeContextCurrentNull
  | destroyContext
  | closeDevice
deriving DecidableEq, Repr

/-- Embedding of internal_audio_subsystem_cleanup (audio.c lines 33-48).
The C switch falls through: entering at a case executes every statement from
that case down to the final break, so each status maps to the list of release
calls executed from its entry point onward. -/
def internal_audio_subsystem_cleanup (failure_status : Nat) : List SubAct :=
  if failure_status = IAS_CLEANUP_NORMALLY then
    [.makeContextCurrentNull, .destroyContext, .closeDevice]
  else if failure_status = IAS_MAKE_CONTEXT_CURRENT_FAILURE then
    [.destroyContext, .closeDevice]
  else if failure_status = IAS_CREATE_DEVICE_CONTEXT_FAILURE then
    [.closeDevice]
  else
    []

/-- Fault-injection environment for audioInitSubsystem: whether each of the
three external calls (alcOpenDevice, alcCreateContext, alcMakeContextCurrent)
succeeds. -/
structure SubsystemEnv where
  openDeviceOk : Bool
  createContextOk : Bool
  makeCurrentOk : Bool
deriving DecidableEq, Repr

/-- Embedding of audioInitSubsystem (audio.c lines 70-103): result code paired
with the list of release calls performed through
internal_audio_subsystem_cleanup on the taken path. -/
def audioInitSubsystem (e : SubsystemEnv) : AudioResult × List SubAct :=
  if e.openDeviceOk = false then
    (.failure, internal_audio_subsystem_cleanup IAS_OPEN_DEFAULT_DEVICE_FAILURE)
  else if e.createContextOk = false then
    (.failure, internal_audio_subsystem_cleanup IAS_CREATE_DEVICE_CONTEXT_FAILURE)
  else if e.makeCurrentOk = false then
    (.failure, internal_audio_subsystem_cleanup IAS_MAKE_CONTEXT_CURRENT_FAILURE)
  else
    (.success, [])

/-- Embedding of audioQuitSubsystem (audio.c lines 233-236). -/
def audioQuitSubsystem : List SubAct :=
  internal_audio_subsystem_cleanup IAS_CLEANUP_NORMALLY

/-- The SF_INFO header fields that audioLoadClip reads after sf_open:
declared frame count, sample rate, channel count, and the raw format field. -/
structure SFInfo where
  frames : Nat
  samplerate : Nat
  channels : Nat
  format : Nat
deriving DecidableEq, Repr

/-- Fault-injection environment for audioLoadClip. Each field fixes the
outcome of one external call: alGenBuffers (and the handle it writes),
alGenSources (and the handle it writes), sf_open (file handle plus header on
success, none on failure), how many frames the file actually yields to
sf_readf_short, calloc, and the error status of alBufferData. -/
structure ClipEnv where
  genBuffersOk : Bool
  bufferHandle : Nat
  genSourcesOk : Bool
  sourceHandle : Nat
  openResult : Option (Nat × SFInfo)
  availFrames : Nat
  callocOk : Bool
  bufferDataOk : Bool
deriving DecidableEq, Repr

/-- The AudioClip struct as used by audio.c: device buffer handle, file
handle, frame count, sample rate, channel count, and format tag. A field is
none while the corresponding C field is still unassigned (indeterminate). -/
structure AudioClip where
  buffer : Option Nat
  file : Option Nat
  frames : Option Nat
  sample_rate : Option Nat
  channels : Option Nat
  format : Option Nat
deriving DecidableEq, Repr

/-- A clip none of whose fields has been assigned yet. -/
def emptyClip : AudioClip :=
  { buffer := none, file := none, frames := none, sample_rate := none,
    channels := none, format := none }

/-- Observable side effects of audioLoadClip on the external libraries,
including the release calls issued by internal_audio_clip_cleanup. A size
argument is none when the C code computes it from the indeterminate value of
an uninitialized variable. -/
inductive AEv
  | callocEv (nmemb : Nat) (memberSize : Option Nat)
  | readfEv (requested got : Nat)
  | bufferDataEv (buffer : Nat) (format : Option Nat) (bytes : Option Nat) (rate : Nat)
  | freeEv
  | sfCloseEv (file : Nat)
  | deleteSourcesEv (source : Nat)
  | deleteBuffersEv (buffer : Nat)
deriving DecidableEq, Repr

/-- Embedding of internal_audio_clip_cleanup (audio.c lines 50-68). The C
switch falls through: statuses CLEANUP_NORMALLY, COPY, READ and ALLOC enter at
sf_close and also run alDeleteSources and alDeleteBuffers; OPEN enters at
alDeleteSources; GENERATE_GLOBAL_SOURCE enters at alDeleteBuffers;
GENERATE_CLIP_BUFFER releases nothing. The calls use the file and buffer
handles held in the clip and the global source handle. -/
def internal_audio_clip_cleanup (failure_status : Nat) (clip : AudioClip)
    (global_source : Nat) : List AEv :=
  if failure_status = IAC_CLEANUP_NORMALLY ∨
     failure_status = IAC_COPY_CLIP_FILE_DATA_TO_CLIP_BUFFER_FAILURE ∨
     failure_status = IAC_READ_CLIP_FILE_COMPLETELY_FAILURE ∨
     failure_status = IAC_ALLOCATE_MEMORY_TO_TEMP_CLIP_DATA_BUFFER_FAILURE then
    [.sfCloseEv (clip.file.getD 0), .deleteSourcesEv global_source,
     .deleteBuffersEv (clip.buffer.getD 0)]
  else if failure_status = IAC_OPEN_CLIP_FILE_FAILURE then
    [.deleteSourcesEv global_source, .deleteBuffersEv (clip.buffer.getD 0)]
  else if failure_status = IAC_GENERATE_GLOBAL_SOURCE_FAILURE then
    [.deleteBuffersEv (clip.buffer.getD 0)]
  else
    []

/-- Outcome of one audioLoadClip call: the returned result code, the state of
the caller-provided clip struct on return, and the trace of external side
effects. -/
structure LoadOutcome where
  result : AudioResult
  clip : AudioClip
  events : List AEv
deriving DecidableEq, Repr

/-- The bit_depth variable of audioLoadClip after the switch at audio.c lines
154-169: 8 for the PCM_S8 and PCM_U8 subcodes, 16 for PCM_16, and otherwise
indeterminate (the switch has no default branch and bit_depth is never
initialized), modelled as none. -/
def clip_bit_depth (info : SFInfo) : Option Nat :=
  if info.format &&& pcm_format_mask = SF_FORMAT_PCM_S8 ∨
     info.format &&& pcm_format_mask = SF_FORMAT_PCM_U8 then some 8
  else if info.format &&& pcm_format_mask = SF_FORMAT_PCM_16 then some 16
  else none

/-- The format field of the clip after the switch at audio.c lines 154-169:
for 8-bit subcodes AL_FORMAT_MONO8 when channels equals 1 and
AL_FORMAT_STEREO8 otherwise, for PCM_16 AL_FORMAT_MONO16 when channels equals
1 and AL_FORMAT_STEREO16 otherwise, and for every other subcode the field is
never assigned, modelled as none. -/
def clip_format (info : SFInfo) : Option Nat :=
  if info.format &&& pcm_format_mask = SF_FORMAT_PCM_S8 ∨
     info.format &&& pcm_format_mask = SF_FORMAT_PCM_U8 then
    some (if info.channels = 1 then AL_FORMAT_MONO8 else AL_FORMAT_STEREO8)
  else if info.format &&& pcm_format_mask = SF_FORMAT_PCM_16 then
    some (if info.channels = 1 then AL_FORMAT_MONO16 else AL_FORMAT_STEREO16)
  else none

/-- The clip struct after audio.c lines 112-169 have run on a file that
opened with handle f and header info: buffer and file handles stored, header
fields copied, format tag set by the switch. -/
def clipAfterHeader (e : ClipEnv) (f : Nat) (info : SFInfo) : AudioClip :=
  { buffer := some e.bufferHandle, file := some f,
    frames := some info.frames, sample_rate := some info.samplerate,
    channels := some info.channels, format := clip_format info }

/-- Embedding of audioLoadClip (audio.c lines 105-210). Steps in source
order: alGenBuffers, alGenSources, sf_open, header copy into the clip, the
format switch (audio.c lines 154-169, which has no default branch: for any
subcode other than PCM_S8, PCM_U8, PCM_16 both bit_depth and clip format stay
indeterminate, modelled as none), calloc of frames * channels elements of
bit_depth / 2 bytes each, sf_readf_short of frames frames (which yields
min frames availFrames), alBufferData of frames * channels * bit_depth / 2
bytes followed by free of the scratch memory, and the final error check.
Each failure path calls internal_audio_clip_cleanup with its status and
returns the failure code. -/
def audioLoadClip (e : ClipEnv) : LoadOutcome :=
  if e.genBuffersOk = false then
    { result := .failure, clip := emptyClip,
      events := internal_audio_clip_cleanup IAC_GENERATE_CLIP_BUFFER_FAILURE
        emptyClip e.sourceHandle }
  else
    let clip1 : AudioClip := { emptyClip with buffer := some e.bufferHandle }
    if e.genSourcesOk = false then
      { result := .failure, clip := clip1,
        events := internal_audio_clip_cleanup IAC_GENERATE_GLOBAL_SOURCE_FAILURE
          clip1 e.sourceHandle }
    else
      match e.openResult with
      | none =>
        { result := .failure, clip := clip1,
          events := internal_audio_clip_cleanup IAC_OPEN_CLIP_FILE_FAILURE
            clip1 e.sourceHandle }
      | some (f, info) =>
        let clip2 := clipAfterHeader e f info
        let callocTr : List AEv :=
          [.callocEv (info.frames * info.channels)
            ((clip_bit_depth info).map (fun bd => bd / 2))]
        if e.callocOk = false then
          { result := .failure, clip := clip2,
            events := callocTr ++
              internal_audio_clip_cleanup
                IAC_ALLOCATE_MEMORY_TO_TEMP_CLIP_DATA_BUFFER_FAILURE
                clip2 e.sourceHandle }
        else
          let got := min info.frames e.availFrames
          let readTr : List AEv := callocTr ++ [.readfEv info.frames got]
          if got ≠ info.frames then
            { result := .failure, clip := clip2,
              events := readTr ++
                internal_audio_clip_cleanup IAC_READ_CLIP_FILE_COMPLETELY_FAILURE
                  clip2 e.sourceHandle }
          else
            let upTr : List AEv := readTr ++
              [.bufferDataEv e.bufferHandle (clip_format info)
                ((clip_bit_depth info).map
                  (fun bd => info.frames * info.channels * bd / 2))
                info.samplerate,
               .freeEv]
            if e.bufferDataOk = false then
              { result := .failure, clip := clip2,
                events := upTr ++
                  internal_audio_clip_cleanup
                    IAC_COPY_CLIP_FILE_DATA_TO_CLIP_BUFFER_FAILURE
                    clip2 e.sourceHandle }
            else
              { result := .success, clip := clip2, events := upTr }

/-- Embedding of audioUnloadClip (audio.c lines 228-231): a single call to
internal_audio_clip_cleanup with status IAC_CLEANUP_NORMALLY. -/
def audioUnloadClip (clip : AudioClip) (global_source : Nat) : List AEv :=
  internal_audio_clip_cleanup IAC_CLEANUP_NORMALLY clip global_source

/-- Whether an event is one of the three resource releases (sf_close,
alDeleteSources, alDeleteBuffers). -/
def isReleaseEv : AEv → Bool
  | .sfCloseEv _ => true
  | .deleteSourcesEv _ => true
  | .deleteBuffersEv _ => true
  | _ => false

/-- The subsequence of release calls in a trace, in execution order. -/
def releaseEvents (tr : List AEv) : List AEv :=
  tr.filter isReleaseEv

/-- Number of scratch-buffer allocations (calloc calls) in a trace. -/
def scratchAllocCount (tr : List AEv) : Nat :=
  tr.countP (fun ev => match ev with | .callocEv _ _ => true | _ => false)

/-- Number of scratch-buffer releases (free calls) in a trace. -/
def scratchFreeCount (tr : List AEv) : Nat :=
  tr.countP (fun ev => match ev with | .freeEv => true | _ => false)

/-- Observable actions of audioPlayClip, in the order the C code performs
them. -/
inductive PlayEv
  | attachBufferEv (buffer : Nat)
  | sourcePlayEv
  | sleepEv (seconds : Nat)
  | pollEv (statePlaying : Bool)
deriving DecidableEq, Repr

/-- The do-while loop of audioPlayClip (audio.c lines 221-225) over an oracle
s, where s i tells whether the i-th alGetSourcei poll reports AL_PLAYING.
Starting at poll index i with the given fuel, it returns the index of the
first poll reporting not-playing, or none if no such poll occurs within the
fuel (the C loop would still be blocking). -/
def runLoop (s : Nat → Bool) (i : Nat) : Nat → Option Nat
  | 0 => none
  | fuel + 1 => if s i = false then some i else runLoop s (i + 1) fuel

/-- The sleep/poll events of the do-while body executed for iterations 0..k:
each iteration sleeps 1 second, then polls the source state. -/
def playLoopTrace (s : Nat → Bool) (k : Nat) : List PlayEv :=
  (List.range (k + 1)).foldr
    (fun i acc => .sleepEv 1 :: .pollEv (s i) :: acc) []

/-- Embedding of audioPlayClip (audio.c lines 212-226): attach the clip
buffer to the global source, start playback, then repeat sleep(1) and poll
until a poll reports the source is no longer playing. The fuel bounds how
many polls we unfold; some trace is returned exactly when the loop exits
within fuel polls, and none models a call still blocked in the loop. -/
def audioPlayClip (buffer : Nat) (s : Nat → Bool) (fuel : Nat) :
    Option (List PlayEv) :=
  (runLoop s 0 fuel).map
    (fun k => [.attachBufferEv buffer, .sourcePlayEv] ++ playLoopTrace s k)

/-- Bytes per sample of one channel for a given PCM bit depth, as the
specification defines it: 1 byte for 8-bit encodings, 2 bytes for 16-bit. -/
def bytesPerSample (bitDepth : Nat) : Nat :=
  if bitDepth = 8 then 1 else if bitDepth = 16 then 2 else 0

/-- The header-to-format mapping table of specification section 4.2, written
from the words of the spec for comparison with the code: rows are the
bit-depth/signedness subcodes, columns are channel counts 1 and 2; 8-bit
signed or unsigned maps to mono-8 and stereo-8, 16-bit signed maps to mono-16
and stereo-16, and every encoding outside the table has no assigned format. -/
def specFormatTable (formatSubcode : Nat) (channels : Nat) : Option Nat :=
  if formatSubcode = SF_FORMAT_PCM_S8 ∨ formatSubcode = SF_FORMAT_PCM_U8 then
    if channels = 1 then some AL_FORMAT_MONO8
    else if channels = 2 then some AL_FORMAT_STEREO8
    else none
  else if formatSubcode = SF_FORMAT_PCM_16 then
    if channels = 1 then some AL_FORMAT_MONO16
    else if channels = 2 then some AL_FORMAT_STEREO16
    else none
  else none

/-- Whether a playback event is a sleep call. -/
def isSleepEv : PlayEv → Bool
  | .sleepEv _ => true
  | _ => false

/-- Whether a playback event is a poll of the source state. -/
def isPollEv : PlayEv → Bool
  | .pollEv _ => true
  | _ => false

/-- Claim C5: audioInitSubsystem performs exact partial rollback at each of
its three failure points. If opening the default device fails it releases
nothing and returns failure; if creating the context fails it closes the
device and returns failure; if making the context current fails it destroys
the context and then closes the device, in that order, and returns failure;
if all three steps succeed it returns success with no release. -/
theorem C5_init_subsystem_rollback (e : SubsystemEnv) :
    (e.openDeviceOk = false →
      audioInitSubsystem e = (.failure, [])) ∧
    (e.openDeviceOk = true → e.createContextOk = false →
      audioInitSubsystem e = (.failure, [.closeDevice])) ∧
    (e.openDeviceOk = true → e.createContextOk = true → e.makeCurrentOk = false →
      audioInitSubsystem e = (.failure, [.destroyContext, .closeDevice])) ∧
    (e.openDeviceOk = true → e.createContextOk = true → e.makeCurrentOk = true →
      audioInitSubsystem e = (.success, [])) := by
  obtain ⟨o, c, m⟩ := e
  cases o <;> cases c <;> cases m <;>
    simp [audioInitSubsystem, internal_audio_subsystem_cleanup,
      IAS_CLEANUP_NORMALLY, IAS_MAKE_CONTEXT_CURRENT_FAILURE,
      IAS_CREATE_DEVICE_CONTEXT_FAILURE, IAS_OPEN_DEFAULT_DEVICE_FAILURE]

/-- Witness for C5 at a concrete environment: context creation fails after
the device opened, and exactly the device is closed. -/
theorem C5_init_subsystem_rollback_witness :
    audioInitSubsystem ⟨true, false, true⟩ = (.failure, [.closeDevice]) :=
  (C5_init_subsystem_rollback ⟨true, false, true⟩).2.1 rfl rfl

/-! Path characterization lemmas for audioLoadClip: one per exit path,
shared by the claim theorems below. -/

/-- Exit path of audioLoadClip when alGenBuffers fails: failure result,
no release call. -/
theorem audioLoadClip_genBuffers_fail (e : ClipEnv)
    (hb : e.genBuffersOk = false) :
    audioLoadClip e =
      { result := .failure, clip := emptyClip, events := [] } := by
  simp [audioLoadClip, hb, internal_audio_clip_cleanup,
    IAC_CLEANUP_NORMALLY, IAC_OPEN_CLIP_FILE_FAILURE,
    IAC_GENERATE_GLOBAL_SOURCE_FAILURE, IAC_GENERATE_CLIP_BUFFER_FAILURE,
    IAC_ALLOCATE_MEMORY_TO_TEMP_CLIP_DATA_BUFFER_FAILURE,
    IAC_READ_CLIP_FILE_COMPLETELY_FAILURE,
    IAC_COPY_CLIP_FILE_DATA_TO_CLIP_BUFFER_FAILURE]

/-- Exit path of audioLoadClip when alGenSources fails: failure result, the
device buffer (the only resource acquired so far) is deleted. -/
theorem audioLoadClip_genSources_fail (e : ClipEnv)
    (hb : e.genBuffersOk = true) (hs : e.genSourcesOk = false) :
    audioLoadClip e =
      { result := .failure,
        clip := { emptyClip with buffer := some e.bufferHandle },
        events := [.deleteBuffersEv e.bufferHandle] } := by
  simp [audioLoadClip, hb, hs, internal_audio_clip_cleanup, emptyClip,
    IAC_CLEANUP_NORMALLY, IAC_OPEN_CLIP_FILE_FAILURE,
    IAC_GENERATE_GLOBAL_SOURCE_FAILURE, IAC_GENERATE_CLIP_BUFFER_FAILURE,
    IAC_ALLOCATE_MEMORY_TO_TEMP_CLIP_DATA_BUFFER_FAILURE,
    IAC_READ_CLIP_FILE_COMPLETELY_FAILURE,
    IAC_COPY_CLIP_FILE_DATA_TO_CLIP_BUFFER_FAILURE]

/-- Exit path of audioLoadClip when sf_open fails: failure result, the
source and the buffer are deleted, in that order. -/
theorem audioLoadClip_open_fail (e : ClipEnv)
    (hb : e.genBuffersOk = true) (hs : e.genSourcesOk = true)
    (ho : e.openResult = none) :
    audioLoadClip e =
      { result := .failure,
        clip := { emptyClip with buffer := some e.bufferHandle },
        events := [.deleteSourcesEv e.sourceHandle,
                   .deleteBuffersEv e.bufferHandle] } := by
  simp [audioLoadClip, hb, hs, ho, internal_audio_clip_cleanup, emptyClip,
    IAC_CLEANUP_NORMALLY, IAC_OPEN_CLIP_FILE_FAILURE,
    IAC_GENERATE_GLOBAL_SOURCE_FAILURE, IAC_GENERATE_CLIP_BUFFER_FAILURE,
    IAC_ALLOCATE_MEMORY_TO_TEMP_CLIP_DATA_BUFFER_FAILURE,
    IAC_READ_CLIP_FILE_COMPLETELY_FAILURE,
    IAC_COPY_CLIP_FILE_DATA_TO_CLIP_BUFFER_FAILURE]

/-- Exit path of audioLoadClip when calloc fails: failure result, the file,
the source and the buffer are released, in that order. -/
theorem audioLoadClip_calloc_fail (e : ClipEnv) (f : Nat) (info : SFInfo)
    (hb : e.genBuffersOk = true) (hs : e.genSourcesOk = true)
    (ho : e.openResult = some (f, info)) (hc : e.callocOk = false) :
    audioLoadClip e =
      { result := .failure, clip := clipAfterHeader e f info,
        events := [.callocEv (info.frames * info.channels)
                     ((clip_bit_depth info).map (fun bd => bd / 2)),
                   .sfCloseEv f, .deleteSourcesEv e.sourceHandle,
                   .deleteBuffersEv e.bufferHandle] } := by
  simp [audioLoadClip, hb, hs, ho, hc, internal_audio_clip_cleanup,
    clipAfterHeader,
    IAC_CLEANUP_NORMALLY, IAC_OPEN_CLIP_FILE_FAILURE,
    IAC_GENERATE_GLOBAL_SOURCE_FAILURE, IAC_GENERATE_CLIP_BUFFER_FAILURE,
    IAC_ALLOCATE_MEMORY_TO_TEMP_CLIP_DATA_BUFFER_FAILURE,
    IAC_READ_CLIP_FILE_COMPLETELY_FAILURE,
    IAC_COPY_CLIP_FILE_DATA_TO_CLIP_BUFFER_FAILURE]

/-- Exit path of audioLoadClip when the file yields fewer frames than the
header declared: failure result, the file, the source and the buffer are
released, in that order, and no free of the scratch memory occurs. -/
theorem audioLoadClip_read_fail (e : ClipEnv) (f : Nat) (info : SFInfo)
    (hb : e.genBuffersOk = true) (hs : e.genSourcesOk = true)
    (ho : e.openResult = some (f, info)) (hc : e.callocOk = true)
    (hr : e.availFrames < info.frames) :
    audioLoadClip e =
      { result := .failure, clip := clipAfterHeader e f info,
        events := [.callocEv (info.frames * info.channels)
                     ((clip_bit_depth info).map (fun bd => bd / 2)),
                   .readfEv info.frames e.availFrames,
                   .sfCloseEv f, .deleteSourcesEv e.sourceHandle,
                   .deleteBuffersEv e.bufferHandle] } := by
  have hmin : min info.frames e.availFrames = e.availFrames :=
    Nat.min_eq_right (Nat.le_of_lt hr)
  have hne : e.availFrames ≠ info.frames := Nat.ne_of_lt hr
  simp [audioLoadClip, hb, hs, ho, hc, hmin, hne,
    internal_audio_clip_cleanup, clipAfterHeader,
    IAC_CLEANUP_NORMALLY, IAC_OPEN_CLIP_FILE_FAILURE,
    IAC_GENERATE_GLOBAL_SOURCE_FAILURE, IAC_GENERATE_CLIP_BUFFER_FAILURE,
    IAC_ALLOCATE_MEMORY_TO_TEMP_CLIP_DATA_BUFFER_FAILURE,
    IAC_READ_CLIP_FILE_COMPLETELY_FAILURE,
    IAC_COPY_CLIP_FILE_DATA_TO_CLIP_BUFFER_FAILURE]

/-- Exit path of audioLoadClip when alBufferData reports an error: failure
result, the scratch memory is freed, then the file, the source and the
buffer are released, in that order. -/
theorem audioLoadClip_upload_fail (e : ClipEnv) (f : Nat) (info : SFInfo)
    (hb : e.genBuffersOk = true) (hs : e.genSourcesOk = true)
    (ho : e.openResult = some (f, info)) (hc : e.callocOk = true)
    (hr : info.frames ≤ e.availFrames) (hu : e.bufferDataOk = false) :
    audioLoadClip e =
      { result := .failure, clip := clipAfterHeader e f info,
        events := [.callocEv (info.frames * info.channels)
                     ((clip_bit_depth info).map (fun bd => bd / 2)),
                   .readfEv info.frames info.frames,
                   .bufferDataEv e.bufferHandle (clip_format info)
                     ((clip_bit_depth info).map
                       (fun bd => info.frames * info.channels * bd / 2))
                     info.samplerate,
                   .freeEv,
                   .sfCloseEv f, .deleteSourcesEv e.sourceHandle,
                   .deleteBuffersEv e.bufferHandle] } := by
  have hmin : min info.frames e.availFrames = info.frames :=
    Nat.min_eq_left hr
  simp [audioLoadClip, hb, hs, ho, hc, hmin, hu,
    internal_audio_clip_cleanup, clipAfterHeader,
    IAC_CLEANUP_NORMALLY, IAC_OPEN_CLIP_FILE_FAILURE,
    IAC_GENERATE_GLOBAL_SOURCE_FAILURE, IAC_GENERATE_CLIP_BUFFER_FAILURE,
    IAC_ALLOCATE_MEMORY_TO_TEMP_CLIP_DATA_BUFFER_FAILURE,
    IAC_READ_CLIP_FILE_COMPLETELY_FAILURE,
    IAC_COPY_CLIP_FILE_DATA_TO_CLIP_BUFFER_FAILURE]

/-- Exit path of audioLoadClip when every step succeeds: success result, no
release call, the scratch memory is allocated, filled, uploaded and freed. -/
theorem audioLoadClip_success (e : ClipEnv) (f : Nat) (info : SFInfo)
    (hb : e.genBuffersOk = true) (hs : e.genSourcesOk = true)
    (ho : e.openResult = some (f, info)) (hc : e.callocOk = true)
    (hr : info.frames ≤ e.availFrames) (hu : e.bufferDataOk = true) :
    audioLoadClip e =
      { result := .success, clip := clipAfterHeader e f info,
        events := [.callocEv (info.frames * info.channels)
                     ((clip_bit_depth info).map (fun bd => bd / 2)),
                   .readfEv info.frames info.frames,
                   .bufferDataEv e.bufferHandle (clip_format info)
                     ((clip_bit_depth info).map
                       (fun bd => info.frames * info.channels * bd / 2))
                     info.samplerate,
                   .freeEv] } := by
  have hmin : min info.frames e.availFrames = info.frames :=
    Nat.min_eq_left hr
  simp [audioLoadClip, hb, hs, ho, hc, hmin, hu]

/-- Inversion: a successful audioLoadClip forces every step to have
succeeded. -/
theorem audioLoadClip_success_inv (e : ClipEnv)
    (h : (audioLoadClip e).result = .success) :
    e.genBuffersOk = true ∧ e.genSourcesOk = true ∧
    ∃ f info, e.openResult = some (f, info) ∧ e.callocOk = true ∧
      info.frames ≤ e.availFrames ∧ e.bufferDataOk = true := by
  cases hb : e.genBuffersOk with
  | false => rw [audioLoadClip_genBuffers_fail e hb] at h; exact absurd h (by simp)
  | true =>
  cases hs : e.genSourcesOk with
  | false => rw [audioLoadClip_genSources_fail e hb hs] at h; exact absurd h (by simp)
  | true =>
  cases ho : e.openResult with
  | none => rw [audioLoadClip_open_fail e hb hs ho] at h; exact absurd h (by simp)
  | some p =>
  obtain ⟨f, info⟩ := p
  cases hc : e.callocOk with
  | false =>
    rw [audioLoadClip_calloc_fail e f info hb hs ho hc] at h
    exact absurd h (by simp)
  | true =>
  by_cases hr : info.frames ≤ e.availFrames
  · cases hu : e.bufferDataOk with
    | false =>
      rw [audioLoadClip_upload_fail e f info hb hs ho hc hr hu] at h
      exact absurd h (by simp)
    | true => exact ⟨rfl, rfl, f, info, rfl, rfl, hr, rfl⟩
  · have hlt : e.availFrames < info.frames := Nat.lt_of_not_le hr
    rw [audioLoadClip_read_fail e f info hb hs ho hc hlt] at h
    exact absurd h (by simp)

/-- Claim C1: at every failure point of audioLoadClip, exactly the resources
among the device buffer (step 1), the playback voice (step 2) and the source
file handle (step 3) that were acquired before the failing step are released,
in strictly reverse acquisition order (file, then voice, then buffer), no
resource of the failing step or a later one is touched, and the call returns
the failure result. -/
theorem C1_load_clip_rollback (e : ClipEnv) :
    (e.genBuffersOk = false →
      (audioLoadClip e).result = .failure ∧
      releaseEvents (audioLoadClip e).events = []) ∧
    (e.genBuffersOk = true → e.genSourcesOk = false →
      (audioLoadClip e).result = .failure ∧
      releaseEvents (audioLoadClip e).events =
        [.deleteBuffersEv e.bufferHandle]) ∧
    (e.genBuffersOk = true → e.genSourcesOk = true → e.openResult = none →
      (audioLoadClip e).result = .failure ∧
      releaseEvents (audioLoadClip e).events =
        [.deleteSourcesEv e.sourceHandle, .deleteBuffersEv e.bufferHandle]) ∧
    (∀ f info, e.genBuffersOk = true → e.genSourcesOk = true →
      e.openResult = some (f, info) → e.callocOk = false →
      (audioLoadClip e).result = .failure ∧
      releaseEvents (audioLoadClip e).events =
        [.sfCloseEv f, .deleteSourcesEv e.sourceHandle,
         .deleteBuffersEv e.bufferHandle]) ∧
    (∀ f info, e.genBuffersOk = true → e.genSourcesOk = true →
      e.openResult = some (f, info) → e.callocOk = true →
      e.availFrames < info.frames →
      (audioLoadClip e).result = .failure ∧
      releaseEvents (audioLoadClip e).events =
        [.sfCloseEv f, .deleteSourcesEv e.sourceHandle,
         .deleteBuffersEv e.bufferHandle]) ∧
    (∀ f info, e.genBuffersOk = true → e.genSourcesOk = true →
      e.openResult = some (f, info) → e.callocOk = true →
      info.frames ≤ e.availFrames → e.bufferDataOk = false →
      (audioLoadClip e).result = .failure ∧
      releaseEvents (audioLoadClip e).events =
        [.sfCloseEv f, .deleteSourcesEv e.sourceHandle,
         .deleteBuffersEv e.bufferHandle]) := by
  refine ⟨fun hb => ?_, fun hb hs => ?_, fun hb hs ho => ?_,
    fun f info hb hs ho hc => ?_, fun f info hb hs ho hc hr => ?_,
    fun f info hb hs ho hc hr hu => ?_⟩
  · rw [audioLoadClip_genBuffers_fail e hb]
    exact ⟨rfl, by simp [releaseEvents, isReleaseEv]⟩
  · rw [audioLoadClip_genSources_fail e hb hs]
    exact ⟨rfl, by simp [releaseEvents, isReleaseEv]⟩
  · rw [audioLoadClip_open_fail e hb hs ho]
    exact ⟨rfl, by simp [releaseEvents, isReleaseEv]⟩
  · rw [audioLoadClip_calloc_fail e f info hb hs ho hc]
    exact ⟨rfl, by simp [releaseEvents, isReleaseEv]⟩
  · rw [audioLoadClip_read_fail e f info hb hs ho hc hr]
    exact ⟨rfl, by simp [releaseEvents, isReleaseEv]⟩
  · rw [audioLoadClip_upload_fail e f info hb hs ho hc hr hu]
    exact ⟨rfl, by simp [releaseEvents, isReleaseEv]⟩

/-- Witness for C1 at a concrete environment: the upload step fails after a
mono 16-bit header with 4410 frames was fully read, and the file, the voice
and the buffer are released, in that order. -/
theorem C1_load_clip_rollback_witness :
    (audioLoadClip
      ⟨true, 10, true, 20, some (30, ⟨4410, 44100, 1, SF_FORMAT_PCM_16⟩),
       4410, true, false⟩).result = .failure ∧
    releaseEvents (audioLoadClip
      ⟨true, 10, true, 20, some (30, ⟨4410, 44100, 1, SF_FORMAT_PCM_16⟩),
       4410, true, false⟩).events =
      [.sfCloseEv 30, .deleteSourcesEv 20, .deleteBuffersEv 10] :=
  (C1_load_clip_rollback _).2.2.2.2.2 30 ⟨4410, 44100, 1, SF_FORMAT_PCM_16⟩
    rfl rfl rfl rfl (by decide) rfl

/-- Claim C9: audioUnloadClip performs exactly the release sequence of the
rollback run when the final upload step of audioLoadClip fails — the same
cleanup function applied to the same clip and global-source state — and that
sequence is: close the source file handle, delete the playback voice, delete
the device buffer, in that order. On the upload-failure path of audioLoadClip
itself, the release calls in the trace equal what audioUnloadClip would
perform on the returned clip and the global source. -/
theorem C9_unload_matches_upload_rollback (clip : AudioClip) (gs : Nat)
    (e : ClipEnv) (f : Nat) (info : SFInfo) :
    audioUnloadClip clip gs =
      internal_audio_clip_cleanup
        IAC_COPY_CLIP_FILE_DATA_TO_CLIP_BUFFER_FAILURE clip gs ∧
    audioUnloadClip clip gs =
      [.sfCloseEv (clip.file.getD 0), .deleteSourcesEv gs,
       .deleteBuffersEv (clip.buffer.getD 0)] ∧
    (e.genBuffersOk = true → e.genSourcesOk = true →
     e.openResult = some (f, info) → e.callocOk = true →
     info.frames ≤ e.availFrames → e.bufferDataOk = false →
      releaseEvents (audioLoadClip e).events =
        audioUnloadClip (audioLoadClip e).clip e.sourceHandle) := by
  refine ⟨?_, ?_, fun hb hs ho hc hr hu => ?_⟩
  · simp [audioUnloadClip, internal_audio_clip_cleanup,
      IAC_CLEANUP_NORMALLY, IAC_COPY_CLIP_FILE_DATA_TO_CLIP_BUFFER_FAILURE]
  · simp [audioUnloadClip, internal_audio_clip_cleanup, IAC_CLEANUP_NORMALLY]
  · rw [audioLoadClip_upload_fail e f info hb hs ho hc hr hu]
    simp [releaseEvents, isReleaseEv, audioUnloadClip,
      internal_audio_clip_cleanup, clipAfterHeader, IAC_CLEANUP_NORMALLY]

/-- Witness for C9 at a concrete clip, global source and load environment:
the unload release sequence and the upload-failure rollback coincide. -/
theorem C9_unload_matches_upload_rollback_witness :
    audioUnloadClip ⟨some 10, some 30, some 4410, some 44100, some 1, none⟩ 20 =
      [.sfCloseEv 30, .deleteSourcesEv 20, .deleteBuffersEv 10] ∧
    releaseEvents (audioLoadClip
      ⟨true, 10, true, 20, some (30, ⟨4410, 44100, 1, SF_FORMAT_PCM_16⟩),
       4410, true, false⟩).events =
      audioUnloadClip
        (audioLoadClip
          ⟨true, 10, true, 20, some (30, ⟨4410, 44100, 1, SF_FORMAT_PCM_16⟩),
           4410, true, false⟩).clip 20 :=
  ⟨(C9_unload_matches_upload_rollback
      ⟨some 10, some 30, some 4410, some 44100, some 1, none⟩ 20
      ⟨true, 10, true, 20, some (30, ⟨4410, 44100, 1, SF_FORMAT_PCM_16⟩),
       4410, true, false⟩ 30 ⟨4410, 44100, 1, SF_FORMAT_PCM_16⟩).2.1,
   (C9_unload_matches_upload_rollback
      ⟨some 10, some 30, some 4410, some 44100, some 1, none⟩ 20
      ⟨true, 10, true, 20, some (30, ⟨4410, 44100, 1, SF_FORMAT_PCM_16⟩),
       4410, true, false⟩ 30 ⟨4410, 44100, 1, SF_FORMAT_PCM_16⟩).2.2
     rfl rfl rfl rfl (by decide) rfl⟩

/-- Claim C2 (code bug): on the incomplete-read failure of audioLoadClip, the
code does release the file, the voice and the buffer in reverse order and
return failure, but it never frees the scratch decode buffer allocated by
calloc: the trace holds one allocation and no free, so scratch memory remains
allocated after the failing call. Header declares 1000 frames, the file
yields only 500. -/
theorem C2_read_failure_leaks_scratch :
    (audioLoadClip
      ⟨true, 10, true, 20, some (30, ⟨1000, 44100, 1, SF_FORMAT_PCM_16⟩),
       500, true, true⟩).result = .failure ∧
    releaseEvents (audioLoadClip
      ⟨true, 10, true, 20, some (30, ⟨1000, 44100, 1, SF_FORMAT_PCM_16⟩),
       500, true, true⟩).events =
      [.sfCloseEv 30, .deleteSourcesEv 20, .deleteBuffersEv 10] ∧
    scratchAllocCount (audioLoadClip
      ⟨true, 10, true, 20, some (30, ⟨1000, 44100, 1, SF_FORMAT_PCM_16⟩),
       500, true, true⟩).events = 1 ∧
    scratchFreeCount (audioLoadClip
      ⟨true, 10, true, 20, some (30, ⟨1000, 44100, 1, SF_FORMAT_PCM_16⟩),
       500, true, true⟩).events = 0 := by
  decide

/-- Claim C3 (code bug): a file whose header declares 24-bit PCM — an
encoding outside the four supported (bit-depth, channel) pairs — is not
rejected: audioLoadClip returns success and the clip carries an undefined
format tag (the switch at audio.c lines 154-169 has no default branch and
never assigns clip format or bit_depth for this subcode). -/
theorem C3_unsupported_format_not_rejected :
    (audioLoadClip
      ⟨true, 10, true, 20, some (30, ⟨100, 44100, 1, SF_FORMAT_PCM_24⟩),
       100, true, true⟩).result = .success ∧
    (audioLoadClip
      ⟨true, 10, true, 20, some (30, ⟨100, 44100, 1, SF_FORMAT_PCM_24⟩),
       100, true, true⟩).clip.format = none := by
  decide

/-- Claim C4 (code bug): for a successfully loaded mono 16-bit file with 4410
frames, the scratch buffer is allocated as 4410 * 1 = 4410 elements of
bit_depth / 2 = 8 bytes each and the upload length is 4410 * 1 * 16 / 2 =
35280 bytes, while frames * channels * bytesPerSample(16) = 8820 bytes: the
code divides the bit depth by 2 instead of 8, so both quantities are four
times what the claim states. -/
theorem C4_sizes_use_half_bit_depth :
    (audioLoadClip
      ⟨true, 10, true, 20, some (30, ⟨4410, 44100, 1, SF_FORMAT_PCM_16⟩),
       4410, true, true⟩).result = .success ∧
    (audioLoadClip
      ⟨true, 10, true, 20, some (30, ⟨4410, 44100, 1, SF_FORMAT_PCM_16⟩),
       4410, true, true⟩).events =
      [.callocEv 4410 (some 8), .readfEv 4410 4410,
       .bufferDataEv 10 (some AL_FORMAT_MONO16) (some 35280) 44100,
       .freeEv] ∧
    4410 * 1 * bytesPerSample 16 = 8820 ∧
    (35280 : Nat) ≠ 8820 := by
  decide

/-- For channel counts 1 and 2 the format tag computed by the switch of
audioLoadClip agrees with the mapping table of specification section 4.2. -/
theorem clip_format_matches_table (info : SFInfo)
    (h : info.channels = 1 ∨ info.channels = 2) :
    clip_format info =
      specFormatTable (info.format &&& pcm_format_mask) info.channels := by
  rcases h with h | h <;> simp [clip_format, specFormatTable, h]

/-- On every path of audioLoadClip past a successful sf_open, the returned
clip struct is the one populated from the header. -/
theorem audioLoadClip_clip_after_open (e : ClipEnv) (f : Nat) (info : SFInfo)
    (hb : e.genBuffersOk = true) (hs : e.genSourcesOk = true)
    (ho : e.openResult = some (f, info)) :
    (audioLoadClip e).clip = clipAfterHeader e f info := by
  cases hc : e.callocOk with
  | false => rw [audioLoadClip_calloc_fail e f info hb hs ho hc]
  | true =>
    by_cases hr : info.frames ≤ e.availFrames
    · cases hu : e.bufferDataOk with
      | false => rw [audioLoadClip_upload_fail e f info hb hs ho hc hr hu]
      | true => rw [audioLoadClip_success e f info hb hs ho hc hr hu]
    · rw [audioLoadClip_read_fail e f info hb hs ho hc (Nat.lt_of_not_le hr)]

/-- Counterexample to claim C6 as stated: an unsigned 8-bit file whose header
declares 3 channels loads successfully, and its format tag is
AL_FORMAT_STEREO8, which is not the assignment of the section 4.2 table (the
table has columns only for channel counts 1 and 2, so it assigns nothing to
3 channels). -/
theorem C6_counterexample_three_channels :
    (audioLoadClip
      ⟨true, 10, true, 20, some (30, ⟨10, 44100, 3, SF_FORMAT_PCM_U8⟩),
       10, true, true⟩).result = .success ∧
    (audioLoadClip
      ⟨true, 10, true, 20, some (30, ⟨10, 44100, 3, SF_FORMAT_PCM_U8⟩),
       10, true, true⟩).clip.channels = some 3 ∧
    (audioLoadClip
      ⟨true, 10, true, 20, some (30, ⟨10, 44100, 3, SF_FORMAT_PCM_U8⟩),
       10, true, true⟩).clip.format = some AL_FORMAT_STEREO8 ∧
    specFormatTable (SF_FORMAT_PCM_U8 &&& pcm_format_mask) 3 = none := by
  decide

/-- Claim C6, amended: for every source file that audioLoadClip loads
successfully with header frame count F, sample rate R and channel count C,
the returned clip satisfies clip.frames = F, clip.sample_rate = R and
clip.channels = C; and whenever C is 1 or 2 the format tag is the one the
section 4.2 mapping table assigns to the header bit depth and channel count.
(The restriction to C in 1, 2 is forced by the counterexample: any other
channel count is silently tagged as stereo, outside the table.) -/
theorem C6_loaded_clip_matches_header (e : ClipEnv) (f : Nat) (info : SFInfo)
    (ho : e.openResult = some (f, info))
    (h : (audioLoadClip e).result = .success) :
    (audioLoadClip e).clip.frames = some info.frames ∧
    (audioLoadClip e).clip.sample_rate = some info.samplerate ∧
    (audioLoadClip e).clip.channels = some info.channels ∧
    (info.channels = 1 ∨ info.channels = 2 →
      (audioLoadClip e).clip.format =
        specFormatTable (info.format &&& pcm_format_mask) info.channels) := by
  obtain ⟨hb, hs, f2, info2, ho2, hc, hr, hu⟩ := audioLoadClip_success_inv e h
  rw [ho] at ho2
  obtain ⟨rfl, rfl⟩ : f = f2 ∧ info = info2 := by
    have := Option.some.inj ho2
    exact ⟨congrArg Prod.fst this, congrArg Prod.snd this⟩
  rw [audioLoadClip_clip_after_open e f info hb hs ho]
  refine ⟨rfl, rfl, rfl, fun hch => ?_⟩
  exact clip_format_matches_table info hch

/-- Witness for the amended C6 at a concrete environment: a well-formed mono
16-bit, 44100 Hz, 4410-frame file loads with matching header fields and the
mono-16 tag of the table. -/
theorem C6_loaded_clip_matches_header_witness :
    (audioLoadClip
      ⟨true, 10, true, 20, some (30, ⟨4410, 44100, 1, SF_FORMAT_PCM_16⟩),
       4410, true, true⟩).clip.frames = some 4410 ∧
    (audioLoadClip
      ⟨true, 10, true, 20, some (30, ⟨4410, 44100, 1, SF_FORMAT_PCM_16⟩),
       4410, true, true⟩).clip.sample_rate = some 44100 ∧
    (audioLoadClip
      ⟨true, 10, true, 20, some (30, ⟨4410, 44100, 1, SF_FORMAT_PCM_16⟩),
       4410, true, true⟩).clip.channels = some 1 ∧
    (audioLoadClip
      ⟨true, 10, true, 20, some (30, ⟨4410, 44100, 1, SF_FORMAT_PCM_16⟩),
       4410, true, true⟩).clip.format =
      specFormatTable (SF_FORMAT_PCM_16 &&& pcm_format_mask) 1 := by
  obtain ⟨h1, h2, h3, h4⟩ :=
    C6_loaded_clip_matches_header
      ⟨true, 10, true, 20, some (30, ⟨4410, 44100, 1, SF_FORMAT_PCM_16⟩),
       4410, true, true⟩ 30 ⟨4410, 44100, 1, SF_FORMAT_PCM_16⟩ rfl (by decide)
  exact ⟨h1, h2, h3, h4 (Or.inl rfl)⟩

/-- Claim C8: for every source file with an 8-bit or 16-bit subcode,
audioLoadClip assigns the mono tag exactly when the header channel count is
1 and the stereo tag for every other channel count, and an unsupported
channel count does not make the load fail: with every step succeeding the
result is success regardless of the channel count. -/
theorem C8_mono_iff_one_channel (e : ClipEnv) (f : Nat) (info : SFInfo)
    (hb : e.genBuffersOk = true) (hs : e.genSourcesOk = true)
    (ho : e.openResult = some (f, info)) :
    (info.format &&& pcm_format_mask = SF_FORMAT_PCM_S8 ∨
     info.format &&& pcm_format_mask = SF_FORMAT_PCM_U8 →
      (audioLoadClip e).clip.format =
        some (if info.channels = 1 then AL_FORMAT_MONO8
              else AL_FORMAT_STEREO8)) ∧
    (info.format &&& pcm_format_mask = SF_FORMAT_PCM_16 →
      (audioLoadClip e).clip.format =
        some (if info.channels = 1 then AL_FORMAT_MONO16
              else AL_FORMAT_STEREO16)) ∧
    (e.callocOk = true → info.frames ≤ e.availFrames →
     e.bufferDataOk = true → (audioLoadClip e).result = .success) := by
  rw [audioLoadClip_clip_after_open e f info hb hs ho]
  refine ⟨fun h8 => ?_, fun h16 => ?_, fun hc hr hu => ?_⟩
  · simp [clipAfterHeader, clip_format, h8]
  · simp [clipAfterHeader, clip_format, h16, SF_FORMAT_PCM_S8,
      SF_FORMAT_PCM_U8, SF_FORMAT_PCM_16]
  · rw [audioLoadClip_success e f info hb hs ho hc hr hu]

/-- Witness for C8 at a concrete environment: an unsigned 8-bit file with 3
channels is tagged AL_FORMAT_STEREO8 and the load succeeds. -/
theorem C8_mono_iff_one_channel_witness :
    (audioLoadClip
      ⟨true, 11, true, 21, some (31, ⟨10, 22050, 3, SF_FORMAT_PCM_U8⟩),
       10, true, true⟩).clip.format = some AL_FORMAT_STEREO8 ∧
    (audioLoadClip
      ⟨true, 11, true, 21, some (31, ⟨10, 22050, 3, SF_FORMAT_PCM_U8⟩),
       10, true, true⟩).result = .success := by
  obtain ⟨h8, _, hsucc⟩ :=
    C8_mono_iff_one_channel
      ⟨true, 11, true, 21, some (31, ⟨10, 22050, 3, SF_FORMAT_PCM_U8⟩),
       10, true, true⟩ 31 ⟨10, 22050, 3, SF_FORMAT_PCM_U8⟩ rfl rfl rfl
  exact ⟨by simpa using h8 (by decide), hsucc rfl (by decide) rfl⟩

/-- The loop of audioPlayClip exits at index k exactly when k is the first
poll reporting not-playing: the poll at k reports false and every earlier
poll from the start index on reports playing. -/
theorem runLoop_spec (s : Nat → Bool) (fuel : Nat) :
    ∀ i k, runLoop s i fuel = some k →
      i ≤ k ∧ s k = false ∧ ∀ j, i ≤ j → j < k → s j = true := by
  induction fuel with
  | zero => intro i k h; simp [runLoop] at h
  | succ n ih =>
    intro i k h
    simp only [runLoop] at h
    by_cases hsi : s i = false
    · rw [if_pos hsi] at h
      obtain rfl : i = k := Option.some.inj h
      exact ⟨Nat.le_refl i, hsi,
        fun j hij hjk => absurd (Nat.lt_of_le_of_lt hij hjk) (Nat.lt_irrefl i)⟩
    · rw [if_neg hsi] at h
      obtain ⟨hik, hk, hall⟩ := ih (i + 1) k h
      refine ⟨Nat.le_trans (Nat.le_succ i) hik, hk, fun j hij hjk => ?_⟩
      rcases Nat.eq_or_lt_of_le hij with heq | hlt
      · rw [← heq]
        cases hv : s i with
        | false => exact absurd hv hsi
        | true => rfl
      · exact hall j hlt hjk

/-- Shape of a returned audioPlayClip trace: the loop exited at some poll
index k and the trace is attach, play, then the k+1 sleep/poll iterations. -/
theorem audioPlayClip_eq_some (b : Nat) (s : Nat → Bool) (fuel : Nat)
    (tr : List PlayEv) (h : audioPlayClip b s fuel = some tr) :
    ∃ k, runLoop s 0 fuel = some k ∧
      tr = [.attachBufferEv b, .sourcePlayEv] ++ playLoopTrace s k := by
  cases hk : runLoop s 0 fuel with
  | none => simp [audioPlayClip, hk] at h
  | some k =>
    refine ⟨k, rfl, ?_⟩
    rw [audioPlayClip, hk] at h
    exact (Option.some.inj h).symm

/-- Every sleep event produced by the loop body sleeps exactly 1 second. -/
theorem playFold_sleep_mem (s : Nat → Bool) (l : List Nat) (n : Nat)
    (h : PlayEv.sleepEv n ∈
      l.foldr (fun i acc => PlayEv.sleepEv 1 :: PlayEv.pollEv (s i) :: acc) []) :
    n = 1 := by
  induction l with
  | nil => simp at h
  | cons a l ih =>
    simp only [List.foldr_cons, List.mem_cons] at h
    rcases h with h | h | h
    · exact PlayEv.sleepEv.inj h
    · simp at h
    · exact ih h

/-- The loop body emits one sleep event per iteration. -/
theorem playFold_count_sleep (s : Nat → Bool) (l : List Nat) :
    (l.foldr (fun i acc => PlayEv.sleepEv 1 :: PlayEv.pollEv (s i) :: acc)
      []).countP isSleepEv = l.length := by
  induction l with
  | nil => simp [List.countP_nil]
  | cons a l ih => simp [List.countP_cons, isSleepEv, ih]

/-- The loop body emits one poll event per iteration. -/
theorem playFold_count_poll (s : Nat → Bool) (l : List Nat) :
    (l.foldr (fun i acc => PlayEv.sleepEv 1 :: PlayEv.pollEv (s i) :: acc)
      []).countP isPollEv = l.length := by
  induction l with
  | nil => simp [List.countP_nil]
  | cons a l ih => simp [List.countP_cons, isPollEv, ih]

/-- A loop trace that exits at index k holds exactly k+1 sleep events. -/
theorem playLoopTrace_count_sleep (s : Nat → Bool) (k : Nat) :
    (playLoopTrace s k).countP isSleepEv = k + 1 := by
  rw [playLoopTrace, playFold_count_sleep, List.length_range]

/-- A loop trace that exits at index k holds exactly k+1 poll events. -/
theorem playLoopTrace_count_poll (s : Nat → Bool) (k : Nat) :
    (playLoopTrace s k).countP isPollEv = k + 1 := by
  rw [playLoopTrace, playFold_count_poll, List.length_range]

/-- Claim C7: audioPlayClip attaches the clip buffer to the voice, starts
playback, and blocks, polling the voice state at a fixed interval of one
second per iteration; it returns only after a poll reports the voice no
longer playing, every earlier poll having reported playing — so there is no
cancellation, timeout or early-exit path: the trace is attach, play, then one
sleep-and-poll pair per iteration up to and including the first not-playing
poll. -/
theorem C7_play_clip_blocks_until_not_playing (b : Nat) (s : Nat → Bool)
    (fuel : Nat) (tr : List PlayEv) (h : audioPlayClip b s fuel = some tr) :
    ∃ k, runLoop s 0 fuel = some k ∧
      s k = false ∧
      (∀ j, j < k → s j = true) ∧
      tr = [.attachBufferEv b, .sourcePlayEv] ++ playLoopTrace s k ∧
      (∀ n, PlayEv.sleepEv n ∈ tr → n = 1) ∧
      tr.countP isSleepEv = k + 1 ∧
      tr.countP isPollEv = k + 1 := by
  obtain ⟨k, hk, rfl⟩ := audioPlayClip_eq_some b s fuel tr h
  obtain ⟨-, hkf, hall⟩ := runLoop_spec s fuel 0 k hk
  refine ⟨k, hk, hkf, fun j hj => hall j (Nat.zero_le j) hj, rfl, ?_, ?_, ?_⟩
  · intro n hn
    simp only [List.cons_append, List.nil_append, List.mem_cons] at hn
    rcases hn with h1 | h1 | h1
    · simp at h1
    · simp at h1
    · exact playFold_sleep_mem s (List.range (k + 1)) n
        (by rwa [playLoopTrace] at h1)
  · simp [List.countP_cons, isSleepEv, playLoopTrace_count_sleep]
  · simp [List.countP_cons, isPollEv, playLoopTrace_count_poll]

/-- Witness for C7 at a concrete call: buffer 7, a voice that already reports
not playing at the first poll, fuel 1. The loop exits at poll 0 after one
sleep. -/
theorem C7_play_clip_blocks_until_not_playing_witness :
    ∃ k, runLoop (fun _ => false) 0 1 = some k ∧
      (fun _ => false : Nat → Bool) k = false ∧
      (∀ j, j < k → (fun _ => false : Nat → Bool) j = true) ∧
      ([PlayEv.attachBufferEv 7, PlayEv.sourcePlayEv, PlayEv.sleepEv 1,
        PlayEv.pollEv false] : List PlayEv) =
        [PlayEv.attachBufferEv 7, PlayEv.sourcePlayEv] ++
          playLoopTrace (fun _ => false) k ∧
      (∀ n, PlayEv.sleepEv n ∈
        ([PlayEv.attachBufferEv 7, PlayEv.sourcePlayEv, PlayEv.sleepEv 1,
          PlayEv.pollEv false] : List PlayEv) → n = 1) ∧
      ([PlayEv.attachBufferEv 7, PlayEv.sourcePlayEv, PlayEv.sleepEv 1,
        PlayEv.pollEv false] : List PlayEv).countP isSleepEv = k + 1 ∧
      ([PlayEv.attachBufferEv 7, PlayEv.sourcePlayEv, PlayEv.sleepEv 1,
        PlayEv.pollEv false] : List PlayEv).countP isPollEv = k + 1 :=
  C7_play_clip_blocks_until_not_playing 7 (fun _ => false) 1
    [PlayEv.attachBufferEv 7, PlayEv.sourcePlayEv, PlayEv.sleepEv 1,
     PlayEv.pollEv false] rfl

/-- Claim C10: audioPlayClip sleeps one full interval before its first poll
of the voice state — the trace after attach and play begins with a 1-second
sleep followed by the first poll — and every call performs at least one
sleep-and-poll iteration, even when the voice already reports not playing at
poll 0. -/
theorem C10_play_clip_sleeps_before_first_poll (b : Nat) (s : Nat → Bool)
    (fuel : Nat) (tr : List PlayEv) (h : audioPlayClip b s fuel = some tr) :
    tr.take 4 = [.attachBufferEv b, .sourcePlayEv, .sleepEv 1, .pollEv (s 0)] ∧
    1 ≤ tr.countP isSleepEv ∧ 1 ≤ tr.countP isPollEv := by
  obtain ⟨k, hk, rfl⟩ := audioPlayClip_eq_some b s fuel tr h
  have hcons : playLoopTrace s k = PlayEv.sleepEv 1 :: PlayEv.pollEv (s 0) ::
      ((List.range k).map Nat.succ).foldr
        (fun i acc => PlayEv.sleepEv 1 :: PlayEv.pollEv (s i) :: acc) [] := by
    rw [playLoopTrace, List.range_succ_eq_map]
    rfl
  refine ⟨by rw [hcons]; rfl, ?_, ?_⟩
  · have := playLoopTrace_count_sleep s k
    simp [List.countP_cons, isSleepEv, this]
  · have := playLoopTrace_count_poll s k
    simp [List.countP_cons, isPollEv, this]

/-- Witness for C10 at a concrete call: buffer 9, a voice that already
reports not playing, fuel 1 — the call still sleeps once before its single
poll. -/
theorem C10_play_clip_sleeps_before_first_poll_witness :
    ([PlayEv.attachBufferEv 9, PlayEv.sourcePlayEv, PlayEv.sleepEv 1,
      PlayEv.pollEv false] : List PlayEv).take 4 =
      [PlayEv.attachBufferEv 9, PlayEv.sourcePlayEv, PlayEv.sleepEv 1,
       PlayEv.pollEv false] ∧
    1 ≤ ([PlayEv.attachBufferEv 9, PlayEv.sourcePlayEv, PlayEv.sleepEv 1,
      PlayEv.pollEv false] : List PlayEv).countP isSleepEv ∧
    1 ≤ ([PlayEv.attachBufferEv 9, PlayEv.sourcePlayEv, PlayEv.sleepEv 1,
      PlayEv.pollEv false] : List PlayEv).countP isPollEv :=
  C10_play_clip_sleeps_before_first_poll 9 (fun _ => false) 1
    [PlayEv.attachBufferEv 9, PlayEv.sourcePlayEv, PlayEv.sleepEv 1,
     PlayEv.pollEv false] rfl
